import Mathlib

/-!
Verification of the commission-marketplace core services against their
specification.  The definitions below are shallow embeddings of
`src/lib/services/commissionListing.service.ts` and
`src/lib/services/proposal.service.ts`.  Machine numbers (prices in cents,
dates as epoch milliseconds) are modelled as `Int`; fallible operations
return `Except`.  Functions of `proposal.repository.ts` (not part of the
sources) are modelled from the specification and say so in their doc
comments.
-/

/- ===================== basic list helpers ===================== -/

/-- Sum of an integer list, folded from the left as the JS `reduce((s, p) => s + p, 0)` does. -/
def sumList (xs : List Int) : Int := xs.foldl (· + ·) 0

/-- Minimum of an integer list, as `Math.min(...prices)` computes it on a
non-empty argument list (the empty case is never reached behind the
`!items?.length` guard; we return 0 there). -/
def listMin : List Int → Int
  | [] => 0
  | x :: xs => xs.foldl min x

/- ===================== listing payload data model ===================== -/

/-- A selectable option inside an option group (`group.selections[i]`). -/
structure Selection where
  id : Option Nat := none
  price : Int := 0
  deriving DecidableEq, Repr

/-- An option group of a listing (`optionGroups[i]`). -/
structure OptionGroup where
  id : Option Nat := none
  selections : List Selection := []
  deriving DecidableEq, Repr

/-- An addon of a listing (`addons[i]`); addons are independently optional. -/
structure Addon where
  id : Option Nat := none
  price : Int := 0
  deriving DecidableEq, Repr

/-- A milestone of a milestone-flow listing. -/
structure Milestone where
  id : Option Nat := none
  percent : Int := 0
  deriving DecidableEq, Repr

/-- A question value as it may arrive in a payload.  The service inspects the
dynamic shape: a plain string, an object (whose `title`, `label`, `text` and
`id` fields may each be present or absent), or any other value, of which the
code only ever takes the JS string form. -/
inductive QuestionVal where
  | str (s : String)
  | obj (id : Option Nat) (title : Option String) (label : Option String)
      (text : Option String)
  | other (stringForm : String)
  deriving DecidableEq, Repr

/-- The `generalOptions` block of a listing payload. -/
structure GeneralOptions where
  optionGroups : Option (List OptionGroup) := none
  addons : Option (List Addon) := none
  questions : Option (List QuestionVal) := none
  deriving DecidableEq, Repr

/-- One subject block of `subjectOptions`. -/
structure SubjectOption where
  id : Option Nat := none
  optionGroups : Option (List OptionGroup) := none
  addons : Option (List Addon) := none
  questions : Option (List QuestionVal) := none
  deriving DecidableEq, Repr

/-- The `revisions` policy object of a listing payload. -/
structure Revisions where
  type : String := "none"
  deriving DecidableEq, Repr

/-- A deadline policy of a listing.  `mode` is read by the service source;
the turnaround offsets are modelled from the spec (the repository that
consumes them is not under src/): the availability window is derived from
the base date plus listing-specific turnaround bounds. -/
structure DeadlinePolicy where
  mode : String
  minOffset : Int := 0
  maxOffset : Int := 0
  deriving DecidableEq, Repr

/-- The commission-listing payload, restricted to the fields read by
`computePriceRange`, `validateListingPayload` and `processPayloadWithIds`.
Fields which the sources access behind optional chaining or presence checks
are `Option`s (absent = `none`). -/
structure ListingPayload where
  title : Option String := none
  type : Option String := none
  flow : Option String := none
  artistId : Option Nat := none
  thumbnailIdx : Option Int := none
  samples : Option (List String) := none
  deadline : Option DeadlinePolicy := none
  basePrice : Option Int := none
  cancelationFee : Option Int := none
  revisions : Option Revisions := none
  slots : Option Int := none
  milestones : Option (List Milestone) := none
  generalOptions : Option GeneralOptions := none
  subjectOptions : Option (List SubjectOption) := none
  deriving DecidableEq, Repr

/- ===================== computePriceRange ===================== -/

/-- The inner `addPrices` closure of `computePriceRange`: on an absent or
empty item list it leaves the accumulator alone, otherwise it adds the
minimum price to `min` and the sum of all prices to `max`. -/
def addPrices (mm : Int × Int) (prices : List Int) : Int × Int :=
  if prices.isEmpty then mm
  else (mm.1 + listMin prices, mm.2 + sumList prices)

/-- Prices of the selections of one option group. -/
def groupPrices (g : OptionGroup) : List Int := g.selections.map Selection.price

/-- `computePriceRange` of `commissionListing.service.ts`: both bounds start
at `basePrice ?? 0`; then `addPrices` runs over every general option group's
selections, the general addons, and per subject over each group's selections
and the subject addons. -/
def computePriceRange (input : ListingPayload) : Int × Int :=
  let base := input.basePrice.getD 0
  let mm0 : Int × Int := (base, base)
  let mm1 :=
    match input.generalOptions with
    | none => mm0
    | some go =>
        let a := (go.optionGroups.getD []).foldl
          (fun mm g => addPrices mm (groupPrices g)) mm0
        addPrices a ((go.addons.getD []).map Addon.price)
  (input.subjectOptions.getD []).foldl
    (fun mm s =>
      let a := (s.optionGroups.getD []).foldl
        (fun mm2 g => addPrices mm2 (groupPrices g)) mm
      addPrices a ((s.addons.getD []).map Addon.price))
    mm1

/-- Contribution of one price list to the computed `min` bound: nothing when
the list is empty, its cheapest entry otherwise. -/
def minContribution (prices : List Int) : Int :=
  if prices.isEmpty then 0 else listMin prices

/-- The price lists of one subject in the order the code visits them:
each option group's selection prices, then the subject addons. -/
def subjectPriceLists (s : SubjectOption) : List (List Int) :=
  (s.optionGroups.getD []).map groupPrices
    ++ [(s.addons.getD []).map Addon.price]

/-- Every price list the code feeds to `addPrices`, in visiting order. -/
def allPriceLists (input : ListingPayload) : List (List Int) :=
  (match input.generalOptions with
   | none => []
   | some go =>
      (go.optionGroups.getD []).map groupPrices
        ++ [(go.addons.getD []).map Addon.price])
  ++ ((input.subjectOptions.getD []).map subjectPriceLists).flatten

/-- Specification-style closed form of the computed minimum: base price plus
the cheapest entry of every non-empty price list (selection groups and addon
lists alike). -/
def minPriceSpec (input : ListingPayload) : Int :=
  input.basePrice.getD 0 + sumList ((allPriceLists input).map minContribution)

/-- Specification-style closed form of the computed maximum: base price plus
the sum of all selection and addon prices. -/
def maxPriceSpec (input : ListingPayload) : Int :=
  input.basePrice.getD 0 + sumList ((allPriceLists input).map sumList)

/-- The worked price-range example: basePrice 1000, one option group with
selections priced 200 and 500, one addon priced 300. -/
def c1Payload : ListingPayload :=
  { basePrice := some 1000
    generalOptions := some
      { optionGroups := some
          [{ id := some 1
             selections := [{ id := some 1, price := 200 },
                            { id := some 2, price := 500 }] }]
        addons := some [{ id := some 1, price := 300 }] } }

/- ===================== processPayloadWithIds ===================== -/

/-- The `HasId` interface lets `generateIds` read and write the `id` field of
any payload component. -/
class HasId (α : Type) where
  getId : α → Option Nat
  setId : α → Nat → α

instance : HasId Selection where
  getId := Selection.id
  setId := fun s i => { s with id := some i }

instance : HasId OptionGroup where
  getId := OptionGroup.id
  setId := fun g i => { g with id := some i }

instance : HasId Addon where
  getId := Addon.id
  setId := fun a i => { a with id := some i }

instance : HasId Milestone where
  getId := Milestone.id
  setId := fun m i => { m with id := some i }

instance : HasId SubjectOption where
  getId := SubjectOption.id
  setId := fun s i => { s with id := some i }

/-- `generateIds` of `commissionListing.service.ts`: assigns `id ?? (1 + index)`
to every item, preserving ids already present. -/
def generateIds {α : Type} [HasId α] (items : List α) : List α :=
  items.mapIdx fun i item => HasId.setId item ((HasId.getId item).getD (1 + i))

/-- The JS string form `String(q)` of a plain object without a custom
`toString`. -/
def jsObjectString (_id : Option Nat) (_title _label _text : Option String) :
    String := "[object Object]"

/-- The question-conversion step of `processPayloadWithIds`: a string becomes
an `id`/`text` object; an object with a `title` field takes the title text;
otherwise an object with a `label` field takes the label text and keeps its
`id` when present; every other value (including an already-canonical
`id`/`text` object, which has neither `title` nor `label`) is coerced to its
JS string form with id `idx + 1`. -/
def processQuestion (idx : Nat) : QuestionVal → QuestionVal
  | .str s => .obj (some (idx + 1)) none none (some s)
  | .obj i t l x =>
    match t with
    | some title => .obj (some (idx + 1)) none none (some title)
    | none =>
      match l with
      | some label => .obj (some (i.getD (idx + 1))) none none (some label)
      | none => .obj (some (idx + 1)) none none (some (jsObjectString i t l x))
  | .other s => .obj (some (idx + 1)) none none (some s)

/-- Process one option group: assign ids to its selections. -/
def processGroup (g : OptionGroup) : OptionGroup :=
  { g with selections := generateIds g.selections }

/-- Process the `generalOptions` block exactly as the source does:
`generateIds` over groups (then over each group's selections), `generateIds`
over addons, and the question conversion over questions; absent sub-fields
stay absent. -/
def processGeneralOptions (go : GeneralOptions) : GeneralOptions :=
  { go with
    optionGroups := go.optionGroups.map fun l => (generateIds l).map processGroup
    addons := go.addons.map generateIds
    questions := go.questions.map fun qs => qs.mapIdx processQuestion }

/-- Process one subject block of `subjectOptions` (same steps as the general
block). -/
def processSubject (s : SubjectOption) : SubjectOption :=
  { s with
    optionGroups := s.optionGroups.map fun l => (generateIds l).map processGroup
    addons := s.addons.map generateIds
    questions := s.questions.map fun qs => qs.mapIdx processQuestion }

/-- `processPayloadWithIds` of `commissionListing.service.ts`. -/
def processPayloadWithIds (p : ListingPayload) : ListingPayload :=
  { p with
    milestones := p.milestones.map generateIds
    generalOptions := p.generalOptions.map processGeneralOptions
    subjectOptions := p.subjectOptions.map fun l =>
      (generateIds l).map processSubject }

/-- An already-canonical question: an object carrying an `id` and a `text`
field and nothing else. -/
def c2Question : QuestionVal := .obj (some 7) none none (some "Describe the pose")

/-- An already-canonical payload holding `c2Question`. -/
def c2Payload : ListingPayload :=
  { basePrice := some 1000
    generalOptions := some { questions := some [c2Question] } }

/- ===================== validateListingPayload ===================== -/

/-- The validation errors `validateListingPayload` can throw, one constructor
per throw site. -/
inductive ListingError where
  | requiredMissing (field : String)
  | milestonesRequired
  | milestoneSumNot100
  | standardFlowMilestoneRevision
  | slotsZero
  deriving DecidableEq, Repr

/-- The first required field that is absent, in the order of the source's
`requiredFields` array (`undefined`/`null` both map to `none` here). -/
def requiredMissingField (p : ListingPayload) : Option String :=
  if p.title.isNone then some "title"
  else if p.type.isNone then some "type"
  else if p.flow.isNone then some "flow"
  else if p.artistId.isNone then some "artistId"
  else if p.thumbnailIdx.isNone then some "thumbnailIdx"
  else if p.samples.isNone then some "samples"
  else if p.deadline.isNone then some "deadline"
  else if p.basePrice.isNone then some "basePrice"
  else if p.cancelationFee.isNone then some "cancelationFee"
  else none

/-- Sum of milestone percentages. -/
def milestoneSum (ms : List Milestone) : Int := sumList (ms.map Milestone.percent)

/-- `validateListingPayload` of `commissionListing.service.ts`: required
fields in order, then milestone presence for milestone flow, then the
percentage sum, then the revision policy, and finally the `slots === 0`
check. -/
def validateListingPayload (p : ListingPayload) : Except ListingError Unit :=
  match requiredMissingField p with
  | some f => .error (.requiredMissing f)
  | none =>
    if p.flow = some "milestone" ∧ p.milestones.getD [] = [] then
      .error .milestonesRequired
    else if p.milestones.getD [] ≠ [] ∧ milestoneSum (p.milestones.getD []) ≠ 100 then
      .error .milestoneSumNot100
    else if p.flow = some "standard" ∧ p.revisions.map Revisions.type = some "milestone" then
      .error .standardFlowMilestoneRevision
    else if p.slots = some 0 then
      .error .slotsZero
    else
      .ok ()

/-- A payload passing every validation check, used to exercise single checks. -/
def basicValidPayload : ListingPayload :=
  { title := some "Chibi commission"
    type := some "template"
    flow := some "standard"
    artistId := some 1
    thumbnailIdx := some 0
    samples := some ["a.png"]
    deadline := some { mode := "standard" }
    basePrice := some 1000
    cancelationFee := some 10 }

/-- The valid payload with a negative slots value. -/
def c9Payload : ListingPayload := { basicValidPayload with slots := some (-1) }

/- ===================== proposal data model ===================== -/

/-- Proposal lifecycle statuses. -/
inductive ProposalStatus where
  | pendingArtist
  | pendingClient
  | accepted
  | rejectedArtist
  | rejectedClient
  | finalized
  | cancelled
  | expired
  deriving DecidableEq, Repr

/-- The terminal statuses: finalized, cancelled, rejectedArtist, expired. -/
def isTerminal : ProposalStatus → Bool
  | .finalized => true
  | .cancelled => true
  | .rejectedArtist => true
  | .expired => true
  | _ => false

/-- An artist adjustment recorded on an accept-with-adjustment response. -/
structure ArtistAdjustment where
  proposedSurcharge : Option Int := none
  proposedDiscount : Option Int := none
  proposedDate : Int := 0
  deriving DecidableEq, Repr

/-- A proposal record, restricted to the fields the service transitions read
or write. -/
structure Proposal where
  clientId : Nat
  artistId : Nat
  status : ProposalStatus
  earliestDate : Int := 0
  latestDate : Int := 0
  deadline : Int := 0
  baseDate : Int := 0
  rejectionReason : Option String := none
  adjustment : Option ArtistAdjustment := none
  deriving DecidableEq, Repr

/-- A listing as the proposal service reads it. -/
structure Listing where
  artistId : Nat
  deadline : DeadlinePolicy
  isActive : Bool := true
  isDeleted : Bool := false
  deriving DecidableEq, Repr

/-- The artist decision passed to `artistRespond`. -/
structure ArtistDecision where
  acceptProposal : Bool
  surcharge : Option Int := none
  discount : Option Int := none
  rejectionReason : Option String := none
  deriving DecidableEq, Repr

/-- The client decision passed to `clientRespond` (absent JS fields default
to falsy). -/
structure ClientDecision where
  cancel : Bool := false
  acceptAdjustments : Bool := false
  deriving DecidableEq, Repr

/-- The errors the proposal service throws, one constructor per throw site
of the sources plus the spec-modelled repository rejection. -/
inductive PError where
  | notAuthorized
  | rejectionReasonRequired
  | notAwaitingArtist
  | notAwaitingClient
  | deadlineTooEarly (earliest : Int)
  | invalidDeadlineMode
  | terminalStatus
  | notPendingArtistEdit
  | notAccepted
  deriving DecidableEq, Repr

/-- The error taxonomy of the specification. -/
inductive ErrorClass where
  | validationErr
  | authorizationErr
  | stateErr
  | configurationErr
  deriving DecidableEq, Repr

/-- Classification of each thrown error under the taxonomy of the spec:
identity failures are authorization errors, missing or malformed input is a
validation error, illegal-status failures are state errors, and an
unrecognised deadline mode is a configuration error. -/
def classify : PError → ErrorClass
  | .notAuthorized => .authorizationErr
  | .rejectionReasonRequired => .validationErr
  | .notAwaitingArtist => .stateErr
  | .notAwaitingClient => .stateErr
  | .deadlineTooEarly _ => .validationErr
  | .invalidDeadlineMode => .configurationErr
  | .terminalStatus => .stateErr
  | .notPendingArtistEdit => .stateErr
  | .notAccepted => .stateErr

/- ===================== deadline policy validator ===================== -/

/-- `validateDeadline` of `proposal.service.ts`: `standard` ignores the
client deadline, `withDeadline` rejects a deadline before `earliestDate`,
`withRush` accepts everything, and any other mode is a listing
misconfiguration. -/
def validateDeadline (listing : Listing) (deadline earliestDate latestDate : Int) :
    Except PError Unit :=
  if listing.deadline.mode = "standard" then .ok ()
  else if listing.deadline.mode = "withDeadline" then
    if deadline < earliestDate then .error (.deadlineTooEarly earliestDate)
    else .ok ()
  else if listing.deadline.mode = "withRush" then .ok ()
  else .error .invalidDeadlineMode

/-- Milliseconds in a day. -/
def msPerDay : Int := 86400000

/-- Modelled from the spec: the system deadline of a `standard`-mode listing,
computed in `proposal.repository.ts` which is not under src/; the spec fixes
it as `latestDate` plus two weeks. -/
def standardSystemDeadline (latestDate : Int) : Int := latestDate + 14 * msPerDay

/- ===================== availability estimator ===================== -/

/-- An availability window. -/
structure Estimate where
  earliestDate : Int
  latestDate : Int
  deriving DecidableEq, Repr

/-- Modelled from the spec: `computeDynamicEstimate` of
`proposal.repository.ts`, which is not under src/.  Per the spec it is a
pure function of the listing and the base date, returning a window derived
deterministically from the base date plus the listing-specific turnaround
bounds. -/
def computeDynamicEstimate (listing : Listing) (baseDate : Int) : Estimate :=
  { earliestDate := baseDate + listing.deadline.minOffset
    latestDate := baseDate + listing.deadline.maxOffset }

/-- A listing whose turnaround bounds are strictly ordered, which the spec
requires of every configured listing (the window must satisfy
`earliestDate < latestDate`). -/
def wellFormedPolicy (d : DeadlinePolicy) : Prop := d.minOffset < d.maxOffset

/-- The result record of `getDynamicEstimate`, carrying the window and the
base date it was computed from. -/
structure EstimateWithBase where
  earliestDate : Int
  latestDate : Int
  baseDate : Int
  deriving DecidableEq, Repr

/-- `getDynamicEstimate` of `proposal.service.ts`: the base date is the
latest active-contract deadline of the artist, or now when there is none;
the window comes from `computeDynamicEstimate` on that base date. -/
def getDynamicEstimate (listing : Listing) (latestDeadline : Option Int)
    (now : Int) : EstimateWithBase :=
  let baseDate := latestDeadline.getD now
  let e := computeDynamicEstimate listing baseDate
  { earliestDate := e.earliestDate, latestDate := e.latestDate
    baseDate := baseDate }

/- ===================== proposal input validation ===================== -/

/-- JS `String.prototype.trim` as an executable function: whitespace is
stripped from both ends. -/
def jsTrim (s : String) : String :=
  ⟨((s.data.dropWhile Char.isWhitespace).reverse.dropWhile
      Char.isWhitespace).reverse⟩

/-- The proposal-input record checked by `validateProposalInput`. -/
structure ProposalInput where
  earliestDate : Int
  latestDate : Int
  generalDescription : String
  referenceImages : List String := []
  baseDate : Option Int := none
  deriving DecidableEq, Repr

/-- `validateProposalInput` of `proposal.service.ts`, with the exact error
messages of the source in source order: the dates must be strictly ordered,
the trimmed description non-empty, at most five reference images, and a base
date present. -/
def validateProposalInput (input : ProposalInput) : Except String Unit :=
  if input.latestDate ≤ input.earliestDate then
    .error "Earliest date must be before latest date"
  else if jsTrim input.generalDescription = "" then
    .error "Description is required"
  else if 5 < input.referenceImages.length then
    .error "Maximum 5 reference images allowed"
  else if input.baseDate.isNone then
    .error "Base date is required"
  else
    .ok ()

/-- The persistence step at the end of `createProposalFromForm`:
`validateProposalInput` runs immediately before `repoCreateProposal`, so a
validation failure propagates and nothing is written; on success the input
is persisted unchanged. -/
def createProposalCommit (input : ProposalInput) :
    Except String ProposalInput :=
  match validateProposalInput input with
  | .error e => .error e
  | .ok _ => .ok input

/- ===================== repository transitions (spec-modelled) ===================== -/

/-- Modelled from the spec: the repository transition `artistResponds`
(`proposal.repository.ts` is not under src/).  Per the state machine of the
spec, terminal statuses admit no further transition and any response fails
with a state error; otherwise a rejection records the reason and moves to
`rejectedArtist`, an acceptance with an adjustment moves to `pendingClient`
recording the adjustment, and an acceptance without moves to `accepted`. -/
def artistResponds (p : Proposal) (accept : Bool)
    (adj : Option ArtistAdjustment) (reason : Option String) :
    Except PError Proposal :=
  if isTerminal p.status then .error .terminalStatus
  else if accept then
    match adj with
    | some a => .ok { p with status := .pendingClient, adjustment := some a }
    | none => .ok { p with status := .accepted }
  else .ok { p with status := .rejectedArtist, rejectionReason := reason }

/-- Modelled from the spec: the repository transition `cancelProposal`
(`proposal.repository.ts` is not under src/).  Cancellation is legal from
any non-terminal status and moves the proposal to `cancelled`. -/
def cancelProposal (p : Proposal) (_clientId : Nat) : Except PError Proposal :=
  if isTerminal p.status then .error .terminalStatus
  else .ok { p with status := .cancelled }

/-- Modelled from the spec: the repository transition
`clientRespondsToAdjustment` (`proposal.repository.ts` is not under src/).
Accepting the adjustment moves to `accepted`, rejecting it moves to
`rejectedClient`; the service only reaches it from `pendingClient`. -/
def clientRespondsToAdjustment (p : Proposal) (accept : Bool)
    (_cancelling : Bool) : Except PError Proposal :=
  if accept then .ok { p with status := .accepted }
  else .ok { p with status := .rejectedClient }

/-- Modelled from the spec: the repository transition `finalizeAcceptance`
(`proposal.repository.ts` is not under src/): marks the proposal
`finalized` (the resulting contract is an external collaborator). -/
def finalizeAcceptance (p : Proposal) : Except PError Proposal :=
  .ok { p with status := .finalized }

/- ===================== proposal service transitions ===================== -/

/-- JS truthiness of an optional number (`0` is falsy). -/
def truthyInt : Option Int → Bool
  | none => false
  | some n => n != 0

/-- JS truthiness of an optional string (the empty string is falsy). -/
def truthyStr : Option String → Bool
  | none => false
  | some s => s != ""

/-- `artistRespond` of `proposal.service.ts` (the database lookup is passed
in as the proposal itself): identity check first; a rejection requires a
truthy rejection reason and is forwarded to the repository with no status
check in the service; an acceptance is only forwarded from `pendingArtist`
or `rejectedClient`, recording an adjustment when a truthy surcharge or
discount is present, and any other status is reported as not awaiting the
artist. -/
def artistRespond (artistId : Nat) (p : Proposal) (decision : ArtistDecision)
    (now : Int) : Except PError Proposal :=
  if p.artistId ≠ artistId then .error .notAuthorized
  else if decision.acceptProposal = false then
    if truthyStr decision.rejectionReason = false then
      .error .rejectionReasonRequired
    else artistResponds p false none decision.rejectionReason
  else if p.status = .pendingArtist ∨ p.status = .rejectedClient then
    let adjustment : Option ArtistAdjustment :=
      if truthyInt decision.surcharge || truthyInt decision.discount then
        some { proposedSurcharge := decision.surcharge
               proposedDiscount := decision.discount
               proposedDate := now }
      else none
    artistResponds p true adjustment none
  else .error .notAwaitingArtist

/-- `clientRespond` of `proposal.service.ts`: identity check first, then the
cancellation branch (before any status requirement), then the
`pendingClient` requirement for responding to an adjustment. -/
def clientRespond (clientId : Nat) (p : Proposal) (decision : ClientDecision) :
    Except PError Proposal :=
  if p.clientId ≠ clientId then .error .notAuthorized
  else if decision.cancel then cancelProposal p clientId
  else if p.status ≠ .pendingClient then .error .notAwaitingClient
  else clientRespondsToAdjustment p decision.acceptAdjustments false

/-- `updateProposalFromForm` of `proposal.service.ts`, restricted to the
fields the embedding carries: identity check, `pendingArtist`-only editing,
recomputation of the availability window from the fresh base date, and
deadline re-validation when a new deadline is submitted. -/
def updateProposalFromForm (userId : Nat) (p : Proposal) (listing : Listing)
    (latestDeadline : Option Int) (now : Int) (newDeadline : Option Int) :
    Except PError Proposal :=
  if p.clientId ≠ userId then .error .notAuthorized
  else if p.status ≠ .pendingArtist then .error .notPendingArtistEdit
  else
    let baseDate := latestDeadline.getD now
    let est := computeDynamicEstimate listing baseDate
    match newDeadline with
    | none =>
        .ok { p with earliestDate := est.earliestDate
                     latestDate := est.latestDate, baseDate := baseDate }
    | some d =>
        match validateDeadline listing d est.earliestDate est.latestDate with
        | .error e => .error e
        | .ok _ =>
            .ok { p with earliestDate := est.earliestDate
                         latestDate := est.latestDate, baseDate := baseDate
                         deadline := d }

/-- `finalizeProposal` of `proposal.service.ts`: it takes no acting user and
performs no identity check; the only guard is the `accepted` status. -/
def finalizeProposal (p : Proposal) : Except PError Proposal :=
  if p.status ≠ .accepted then .error .notAccepted
  else finalizeAcceptance p

/- ===================== helper lemmas ===================== -/

/-- Folding addition from an arbitrary start shifts the sum from zero. -/
theorem foldl_add_shift (xs : List Int) : ∀ c : Int,
    xs.foldl (· + ·) c = c + xs.foldl (· + ·) 0 := by
  induction xs with
  | nil => intro c; simp
  | cons x xs ih =>
      intro c
      simp only [List.foldl_cons]
      rw [ih (c + x), ih (0 + x)]
      ring

/-- `sumList` unfolds on a cons cell. -/
theorem sumList_cons (x : Int) (xs : List Int) :
    sumList (x :: xs) = x + sumList xs := by
  simp only [sumList, List.foldl_cons]
  rw [foldl_add_shift xs (0 + x)]
  ring

/-- One `addPrices` step adds the min contribution to the first component
and the full sum to the second (an empty list contributes zero to both). -/
theorem addPrices_eq (mm : Int × Int) (prices : List Int) :
    addPrices mm prices = (mm.1 + minContribution prices, mm.2 + sumList prices) := by
  unfold addPrices minContribution
  cases prices with
  | nil => simp [sumList]
  | cons x xs => simp

/-- Folding `addPrices` over any sequence of price lists adds the summed min
contributions to the first component and the summed totals to the second. -/
theorem foldl_addPrices_eq (ls : List (List Int)) : ∀ a b : Int,
    ls.foldl addPrices (a, b)
      = (a + sumList (ls.map minContribution), b + sumList (ls.map sumList)) := by
  induction ls with
  | nil => intro a b; simp [sumList]
  | cons l ls ih =>
      intro a b
      simp only [List.foldl_cons, List.map_cons]
      rw [addPrices_eq, ih]
      rw [sumList_cons, sumList_cons]
      simp only [Prod.mk.injEq]
      refine ⟨by ring, by ring⟩

/-- One subject step of the fold equals the `addPrices` fold over that
subject's price lists. -/
theorem subject_step_eq (s : SubjectOption) (mm : Int × Int) :
    addPrices
      ((s.optionGroups.getD []).foldl
        (fun mm2 g => addPrices mm2 (groupPrices g)) mm)
      ((s.addons.getD []).map Addon.price)
      = (subjectPriceLists s).foldl addPrices mm := by
  simp only [subjectPriceLists, List.foldl_append, List.foldl_map,
    List.foldl_cons, List.foldl_nil]

/-- The per-subject fold of `computePriceRange` equals the flat `addPrices`
fold over the flattened per-subject price lists. -/
theorem subjects_foldl_eq (subs : List SubjectOption) : ∀ mm : Int × Int,
    subs.foldl
      (fun mm s =>
        addPrices
          ((s.optionGroups.getD []).foldl
            (fun mm2 g => addPrices mm2 (groupPrices g)) mm)
          ((s.addons.getD []).map Addon.price))
      mm
      = ((subs.map subjectPriceLists).flatten).foldl addPrices mm := by
  induction subs with
  | nil => intro mm; simp
  | cons s subs ih =>
      intro mm
      simp only [List.foldl_cons, List.map_cons, List.flatten_cons,
        List.foldl_append]
      rw [subject_step_eq]
      exact ih _

/-- `computePriceRange` is the `addPrices` fold over the price lists in
visiting order. -/
theorem computePriceRange_eq_foldl (input : ListingPayload) :
    computePriceRange input
      = (allPriceLists input).foldl addPrices
          (input.basePrice.getD 0, input.basePrice.getD 0) := by
  unfold computePriceRange allPriceLists
  cases hgo : input.generalOptions with
  | none =>
      simp only [List.nil_append]
      exact subjects_foldl_eq _ _
  | some go =>
      simp only [List.foldl_append, List.foldl_map, List.foldl_cons,
        List.foldl_nil]
      exact subjects_foldl_eq _ _

/- ===================== claim theorems ===================== -/

/-- C1 (counterexample): on the worked example of the claim — basePrice 1000,
one option group with selections priced 200 and 500, one addon priced 300 —
`computePriceRange` returns min 1500 and max 2000, not the claimed min 1200:
the `addPrices` helper also adds the cheapest addon price to the minimum. -/
theorem computePriceRange_example_min_is_1500 :
    computePriceRange c1Payload = (1500, 2000)
      ∧ (computePriceRange c1Payload).1 ≠ 1200 := by
  constructor <;> decide

/-- C1 (amended): the computed minimum is the base price plus, for every
non-empty price list — each option group's selections AND each non-empty
addon list, general and per-subject — that list's cheapest price; the
maximum is the base price plus the sum of all selection and addon prices.
On the worked example this yields min 1500 (not 1200) and max 2000. -/
theorem computePriceRange_characterization :
    (∀ input : ListingPayload,
      computePriceRange input = (minPriceSpec input, maxPriceSpec input))
      ∧ computePriceRange c1Payload = (1500, 2000) := by
  constructor
  · intro input
    rw [computePriceRange_eq_foldl, foldl_addPrices_eq]
    rfl
  · decide

/-- C2 (code bug): normalization is not idempotent on already-canonical
payloads.  A question that is already in the canonical id/text object form
has neither a `title` nor a `label` field, so the question converter falls
through to the JS string coercion: re-normalizing the canonical payload
rewrites the question to id 1 with text `[object Object]`, losing both the
stored id 7 and the stored text. -/
theorem processPayloadWithIds_not_idempotent_on_questions :
    processPayloadWithIds c2Payload ≠ c2Payload
      ∧ (processPayloadWithIds c2Payload).generalOptions.bind
          GeneralOptions.questions
        = some [QuestionVal.obj (some 1) none none (some "[object Object]")] := by
  constructor <;> decide

/-- C3: the deadline validator accepts every deadline under `standard`
(client input ignored; the spec-modelled system deadline is `latestDate`
plus 14 days), rejects exactly the deadlines before `earliestDate` under
`withDeadline`, accepts everything under `withRush`, and reports a
configuration error for any other mode. -/
theorem validateDeadline_mode_behavior (listing : Listing) (d e l : Int) :
    (listing.deadline.mode = "standard" →
      validateDeadline listing d e l = .ok ())
    ∧ (listing.deadline.mode = "withDeadline" →
      (d < e → validateDeadline listing d e l = .error (.deadlineTooEarly e))
        ∧ (e ≤ d → validateDeadline listing d e l = .ok ()))
    ∧ (listing.deadline.mode = "withRush" →
      validateDeadline listing d e l = .ok ())
    ∧ (listing.deadline.mode ≠ "standard" →
      listing.deadline.mode ≠ "withDeadline" →
      listing.deadline.mode ≠ "withRush" →
      validateDeadline listing d e l = .error .invalidDeadlineMode
        ∧ classify .invalidDeadlineMode = .configurationErr)
    ∧ standardSystemDeadline l = l + 14 * 86400000 := by
  refine ⟨?_, ?_, ?_, ?_, ?_⟩
  · intro h; simp [validateDeadline, h]
  · intro h
    constructor
    · intro hde; simp [validateDeadline, h, hde]
    · intro hed; simp [validateDeadline, h, not_lt.mpr hed]
  · intro h; simp [validateDeadline, h]
  · intro h1 h2 h3
    exact ⟨by simp [validateDeadline, h1, h2, h3], rfl⟩
  · rfl

/-- C3 witness: a `withDeadline` listing rejects a deadline before the
earliest date. -/
theorem validateDeadline_mode_behavior_witness :
    validateDeadline { artistId := 2, deadline := { mode := "withDeadline" } }
        5 10 20
      = .error (.deadlineTooEarly 10) :=
  ((validateDeadline_mode_behavior
      { artistId := 2, deadline := { mode := "withDeadline" } } 5 10 20).2.1
    rfl).1 (by decide)

/-- C4 (counterexample): on a proposal already in `rejectedArtist`, a further
reject response without a reason by the owning artist fails with the
rejection-reason validation error — a ValidationError, not a StateError: the
reason check runs before any status handling. -/
theorem artistRespond_rejectedArtist_reject_without_reason :
    artistRespond 2 { clientId := 1, artistId := 2, status := .rejectedArtist }
        { acceptProposal := false } 0
      = .error .rejectionReasonRequired
    ∧ classify .rejectionReasonRequired ≠ ErrorClass.stateErr :=
  ⟨rfl, by decide⟩

/-- C4 (amended): once a proposal is in `rejectedArtist`, no call to
`artistRespond` by the owning artist transitions it: an accept fails with
the not-awaiting-artist state error, a reject carrying a reason fails with
the terminal-status state error, and a reject without a reason fails with
the rejection-reason validation error. -/
theorem artistRespond_rejectedArtist_blocked (p : Proposal)
    (d : ArtistDecision) (now : Int) (h : p.status = .rejectedArtist) :
    (d.acceptProposal = true →
      artistRespond p.artistId p d now = .error .notAwaitingArtist
        ∧ classify .notAwaitingArtist = .stateErr)
    ∧ (d.acceptProposal = false → truthyStr d.rejectionReason = true →
      artistRespond p.artistId p d now = .error .terminalStatus
        ∧ classify .terminalStatus = .stateErr)
    ∧ (d.acceptProposal = false → truthyStr d.rejectionReason = false →
      artistRespond p.artistId p d now = .error .rejectionReasonRequired
        ∧ classify .rejectionReasonRequired = .validationErr)
    ∧ ∀ q : Proposal, artistRespond p.artistId p d now ≠ .ok q := by
  refine ⟨?_, ?_, ?_, ?_⟩
  · intro ha
    exact ⟨by simp [artistRespond, ha, h], rfl⟩
  · intro ha hr
    exact ⟨by simp [artistRespond, artistResponds, ha, hr, h, isTerminal], rfl⟩
  · intro ha hr
    exact ⟨by simp [artistRespond, ha, hr], rfl⟩
  · intro q
    cases ha : d.acceptProposal
    · cases hr : truthyStr d.rejectionReason
      · simp [artistRespond, ha, hr]
      · simp [artistRespond, artistResponds, ha, hr, h, isTerminal]
    · simp [artistRespond, ha, h]

/-- C4 witness: the owning artist accepting a `rejectedArtist` proposal gets
the not-awaiting-artist state error. -/
theorem artistRespond_rejectedArtist_blocked_witness :
    artistRespond 2 { clientId := 1, artistId := 2, status := .rejectedArtist }
        { acceptProposal := true } 0
      = .error .notAwaitingArtist :=
  ((artistRespond_rejectedArtist_blocked
      { clientId := 1, artistId := 2, status := .rejectedArtist }
      { acceptProposal := true } 0 rfl).1 rfl).1

/-- C5 (counterexample): `finalizeProposal` takes no acting user and runs no
identity check — on an accepted proposal owned by client 1 and artist 2 it
just finalizes, and it can never produce the authorization error the claim
requires of a failed identity check. -/
theorem finalizeProposal_no_identity_guard :
    finalizeProposal { clientId := 1, artistId := 2, status := .accepted }
      = .ok { clientId := 1, artistId := 2, status := .finalized }
    ∧ finalizeProposal { clientId := 1, artistId := 2, status := .accepted }
      ≠ .error .notAuthorized :=
  ⟨rfl, by intro h; exact Except.noConfusion h⟩

/-- C5 (amended): update, artist respond and client respond are each guarded
by an identity check that fails with the authorization error, and that error
classifies as an AuthorizationError; `finalizeProposal`, however, takes no
actor and performs no identity check — it never returns the authorization
error for any proposal. -/
theorem proposal_mutations_identity_guards :
    (∀ (a : Nat) (p : Proposal) (d : ArtistDecision) (now : Int),
      p.artistId ≠ a → artistRespond a p d now = .error .notAuthorized)
    ∧ (∀ (c : Nat) (p : Proposal) (d : ClientDecision),
      p.clientId ≠ c → clientRespond c p d = .error .notAuthorized)
    ∧ (∀ (u : Nat) (p : Proposal) (listing : Listing)
        (latestDeadline : Option Int) (now : Int) (nd : Option Int),
      p.clientId ≠ u →
        updateProposalFromForm u p listing latestDeadline now nd
          = .error .notAuthorized)
    ∧ (∀ p : Proposal, ∀ e : PError,
      finalizeProposal p = .error e → e ≠ .notAuthorized)
    ∧ classify .notAuthorized = .authorizationErr := by
  refine ⟨?_, ?_, ?_, ?_, rfl⟩
  · intro a p d now h; simp [artistRespond, h]
  · intro c p d h; simp [clientRespond, h]
  · intro u p listing ld now nd h; simp [updateProposalFromForm, h]
  · intro p e h
    unfold finalizeProposal finalizeAcceptance at h
    split at h
    · simp only [Except.error.injEq] at h
      subst h
      intro hc
      exact PError.noConfusion hc
    · exact Except.noConfusion h

/-- C5 witness: a non-artist caller of `artistRespond` gets the
authorization error. -/
theorem proposal_mutations_identity_guards_witness :
    artistRespond 9 { clientId := 1, artistId := 2, status := .pendingArtist }
        { acceptProposal := true } 0
      = .error .notAuthorized :=
  proposal_mutations_identity_guards.1 9
    { clientId := 1, artistId := 2, status := .pendingArtist }
    { acceptProposal := true } 0 (by decide)

/-- C6: from every non-terminal status — pendingArtist, pendingClient,
rejectedClient, accepted — the owning client cancelling transitions the
proposal to `cancelled`; the cancel branch runs before the pendingClient
status requirement, as the pendingArtist, rejectedClient and accepted cases
show. -/
theorem clientRespond_cancel_from_non_terminal (p : Proposal)
    (d : ClientDecision)
    (h : p.status = .pendingArtist ∨ p.status = .pendingClient
        ∨ p.status = .rejectedClient ∨ p.status = .accepted)
    (hc : d.cancel = true) :
    clientRespond p.clientId p d = .ok { p with status := .cancelled } := by
  have hterm : isTerminal p.status = false := by
    rcases h with h | h | h | h <;> rw [h] <;> rfl
  simp [clientRespond, cancelProposal, hc, hterm]

/-- C6 witness: the owning client cancels a `pendingArtist` proposal. -/
theorem clientRespond_cancel_from_non_terminal_witness :
    clientRespond 1 { clientId := 1, artistId := 2, status := .pendingArtist }
        { cancel := true }
      = .ok { clientId := 1, artistId := 2, status := .cancelled } :=
  clientRespond_cancel_from_non_terminal
    { clientId := 1, artistId := 2, status := .pendingArtist }
    { cancel := true } (Or.inl rfl) rfl

/-- C7: `getDynamicEstimate` returns a record carrying all three fields;
its base date is the latest active-contract deadline of the artist, or now
when there is none, and on any listing with well-formed turnaround bounds
the window satisfies earliestDate < latestDate. -/
theorem getDynamicEstimate_window_and_base (listing : Listing)
    (latestDeadline : Option Int) (now : Int)
    (h : wellFormedPolicy listing.deadline) :
    (getDynamicEstimate listing latestDeadline now).earliestDate
      < (getDynamicEstimate listing latestDeadline now).latestDate
    ∧ (getDynamicEstimate listing latestDeadline now).baseDate
      = latestDeadline.getD now := by
  unfold getDynamicEstimate computeDynamicEstimate
  unfold wellFormedPolicy at h
  exact ⟨by dsimp only; omega, rfl⟩

/-- C7 witness: a listing with turnaround bounds 3 and 10 days and no active
contract yields a window strictly ordered around the current date. -/
theorem getDynamicEstimate_window_and_base_witness :
    (getDynamicEstimate
        { artistId := 2
          deadline := { mode := "standard", minOffset := 3, maxOffset := 10 } }
        none 1000).earliestDate
      < (getDynamicEstimate
        { artistId := 2
          deadline := { mode := "standard", minOffset := 3, maxOffset := 10 } }
        none 1000).latestDate :=
  (getDynamicEstimate_window_and_base
    { artistId := 2
      deadline := { mode := "standard", minOffset := 3, maxOffset := 10 } }
    none 1000 (by unfold wellFormedPolicy; decide)).1

/-- C8: for every payload carrying a non-empty milestones array, a
percentage sum different from 100 makes the listing validation fail, and a
sum of exactly 100 never triggers the milestone-sum error. -/
theorem validateListingPayload_milestone_sum (p : ListingPayload)
    (ms : List Milestone) (hm : p.milestones = some ms) (hne : ms ≠ []) :
    (milestoneSum ms ≠ 100 → validateListingPayload p ≠ .ok ())
    ∧ (milestoneSum ms = 100 →
      validateListingPayload p ≠ .error .milestoneSumNot100) := by
  have hms : p.milestones.getD [] = ms := by rw [hm]; rfl
  constructor
  · intro hsum
    unfold validateListingPayload
    cases hreq : requiredMissingField p with
    | some f => simp
    | none =>
        rw [hms]
        split_ifs with h1 h2 h3 h4 <;> simp_all
  · intro hsum
    unfold validateListingPayload
    cases hreq : requiredMissingField p with
    | some f => simp
    | none =>
        rw [hms]
        split_ifs with h1 h2 h3 h4 <;> simp_all

/-- C8 witness: percentages 30, 30, 30 are rejected while 30, 30, 40 pass
the milestone-sum check. -/
theorem validateListingPayload_milestone_sum_witness :
    validateListingPayload
        { basicValidPayload with
          milestones := some [{ percent := 30 }, { percent := 30 },
                              { percent := 30 }] }
      ≠ .ok ()
    ∧ validateListingPayload
        { basicValidPayload with
          milestones := some [{ percent := 30 }, { percent := 30 },
                              { percent := 40 }] }
      ≠ .error .milestoneSumNot100 :=
  ⟨(validateListingPayload_milestone_sum
      { basicValidPayload with
        milestones := some [{ percent := 30 }, { percent := 30 },
                            { percent := 30 }] }
      [{ percent := 30 }, { percent := 30 }, { percent := 30 }]
      rfl (by decide)).1 (by decide),
   (validateListingPayload_milestone_sum
      { basicValidPayload with
        milestones := some [{ percent := 30 }, { percent := 30 },
                            { percent := 40 }] }
      [{ percent := 30 }, { percent := 30 }, { percent := 40 }]
      rfl (by decide)).2 (by decide)⟩

/-- C9 (counterexample): an otherwise fully valid payload whose slots value
is the negative number -1 passes `validateListingPayload` — the code only
rejects a slots value of exactly 0, so negative slots are not rejected. -/
theorem validateListingPayload_negative_slots_accepted :
    validateListingPayload c9Payload = .ok ()
    ∧ c9Payload.slots = some (-1) :=
  ⟨rfl, rfl⟩

/-- C9 (amended): the slots check of listing validation rejects exactly the
value 0 (message: slots cannot be 0); any non-zero slots value — negative
values included — passes, and an otherwise valid payload with non-zero
slots validates successfully. -/
theorem validateListingPayload_slots_check (p : ListingPayload)
    (hreq : requiredMissingField p = none)
    (h1 : ¬(p.flow = some "milestone" ∧ p.milestones.getD [] = []))
    (h2 : ¬(p.milestones.getD [] ≠ []
        ∧ milestoneSum (p.milestones.getD []) ≠ 100))
    (h3 : ¬(p.flow = some "standard"
        ∧ p.revisions.map Revisions.type = some "milestone")) :
    (p.slots = some 0 → validateListingPayload p = .error .slotsZero)
    ∧ (∀ n : Int, p.slots = some n → n ≠ 0 →
        validateListingPayload p = .ok ()) := by
  constructor
  · intro hs
    unfold validateListingPayload
    simp only [hreq]
    rw [if_neg h1, if_neg h2, if_neg h3, if_pos hs]
  · intro n hn hnz
    unfold validateListingPayload
    simp only [hreq]
    rw [if_neg h1, if_neg h2, if_neg h3,
      if_neg (by rw [hn]; simp [hnz])]

/-- C9 witness: slots 0 is rejected and slots -1 accepted on the valid base
payload. -/
theorem validateListingPayload_slots_check_witness :
    validateListingPayload { basicValidPayload with slots := some 0 }
      = .error .slotsZero
    ∧ validateListingPayload c9Payload = .ok () :=
  ⟨(validateListingPayload_slots_check
      { basicValidPayload with slots := some 0 }
      rfl (by decide) (by decide) (by decide)).1 rfl,
   (validateListingPayload_slots_check c9Payload
      rfl (by decide) (by decide) (by decide)).2 (-1) rfl (by decide)⟩

/-- C10: proposal-input validation never passes with more than five
reference images (and reports exactly the maximum-five message once the
earlier date and description checks pass); a passing validation guarantees
strictly ordered dates, a non-blank description and at most five images;
and a validation failure propagates out of the creation commit step, so
nothing is persisted. -/
theorem validateProposalInput_checks_and_no_persist (i : ProposalInput) :
    (5 < i.referenceImages.length → validateProposalInput i ≠ .ok ())
    ∧ (i.earliestDate < i.latestDate → jsTrim i.generalDescription ≠ "" →
        5 < i.referenceImages.length →
        validateProposalInput i = .error "Maximum 5 reference images allowed")
    ∧ (validateProposalInput i = .ok () →
        i.earliestDate < i.latestDate ∧ jsTrim i.generalDescription ≠ ""
          ∧ i.referenceImages.length ≤ 5)
    ∧ (∀ e : String, validateProposalInput i = .error e →
        createProposalCommit i = .error e) := by
  refine ⟨?_, ?_, ?_, ?_⟩
  · intro hlen
    unfold validateProposalInput
    split_ifs <;> simp_all
  · intro hd hdesc hlen
    unfold validateProposalInput
    rw [if_neg (by omega), if_neg hdesc, if_pos hlen]
  · intro h
    unfold validateProposalInput at h
    split_ifs at h with g1 g2 g3 g4
    exact ⟨by omega, g2, by omega⟩
  · intro e he
    unfold createProposalCommit
    rw [he]

/-- C10 witness: six reference images on otherwise valid input produce the
maximum-five error and the creation step persists nothing. -/
theorem validateProposalInput_checks_witness :
    validateProposalInput
        { earliestDate := 0, latestDate := 1, generalDescription := "hi"
          referenceImages := ["a", "b", "c", "d", "e", "f"]
          baseDate := some 0 }
      = .error "Maximum 5 reference images allowed"
    ∧ createProposalCommit
        { earliestDate := 0, latestDate := 1, generalDescription := "hi"
          referenceImages := ["a", "b", "c", "d", "e", "f"]
          baseDate := some 0 }
      = .error "Maximum 5 reference images allowed" := by
  refine ⟨?_, ?_⟩
  · exact (validateProposalInput_checks_and_no_persist
      { earliestDate := 0, latestDate := 1, generalDescription := "hi"
        referenceImages := ["a", "b", "c", "d", "e", "f"]
        baseDate := some 0 }).2.1 (by decide) (by decide) (by decide)
  · exact (validateProposalInput_checks_and_no_persist
      { earliestDate := 0, latestDate := 1, generalDescription := "hi"
        referenceImages := ["a", "b", "c", "d", "e", "f"]
        baseDate := some 0 }).2.2.2 _
      ((validateProposalInput_checks_and_no_persist
        { earliestDate := 0, latestDate := 1, generalDescription := "hi"
          referenceImages := ["a", "b", "c", "d", "e", "f"]
          baseDate := some 0 }).2.1 (by decide) (by decide) (by decide))
